import Mathlib

/-!
# Dataset cursor engine of `@langwatch/n8n-nodes-langwatch`

A shallow embedding of the dataset row-windowing and pagination logic of the
two dataset trigger nodes:

* `src/nodes/LangWatchDatasetRowTrigger/LangWatchDatasetRowTrigger.node.ts`
  (`execute`: cached snapshot in workflow static data, persisted cursor), and
* `src/nodes/LangWatchDatasetBatchTrigger/LangWatchDatasetBatchTrigger.node.ts`
  (`trigger`: one fetch, then a loop emitting every row of the working set).

JavaScript numbers that only ever hold integers are modelled as `Int`
(with explicit `% 2^32` where the xorshift32 generator relies on 32-bit
overflow), optional / possibly-`undefined` values as `Option`, thrown
`NodeOperationError`s as an error inductive, and the HTTP fetch as an
explicit input describing its outcome.  The two expressions the code
evaluates in IEEE-754 binary64 — the random draw
`Math.floor(((s>>>0)%10^6/10^6) * (i+1))` and the progress percentage
`Math.round(((c+1)/T)*100)` — are modelled exactly, by computing the
correctly-rounded binary64 value of each intermediate result as an exact
rational `m · 2^(e-52)` (round to nearest, ties to even; the engine's
values stay far inside the normal range, so overflow and subnormals cannot
occur).
-/

/-- A dataset row as returned by the LangWatch API
(`LangWatchDatasetRow` in `src/shared/types.ts`).  The `entry` payload is
opaque to the engine; it is represented by an opaque string. -/
structure LangWatchDatasetRow where
  id : String
  datasetId : String
  projectId : String
  entry : String
  createdAt : String
  updatedAt : String
deriving DecidableEq, Repr

/-- The `processingOptions` collection parameter (`ProcessingOptions` in
`src/shared/types.ts`, extended with `shuffleSeed` and `resetProgress` at the
use sites).  Every field is optional: an n8n `collection` parameter only
contains the options the user actually added, so unset options are
`undefined`, modelled as `none`. -/
structure ProcessingOptions where
  limitRows : Option Bool
  maxRows : Option Int
  startRow : Option Int
  endRow : Option Int
  stepSize : Option Int
  shuffleRows : Option Bool
  shuffleSeed : Option Int
  resetProgress : Option Bool
deriving DecidableEq, Repr

/-- The workflow static data record used by the row trigger
(`this.getWorkflowStaticData('node')`), with every field possibly absent. -/
structure StaticData where
  processedDataset : Option (List LangWatchDatasetRow)
  datasetId : Option String
  shuffleRows : Option Bool
  shuffleSeed : Option Int
  cursor : Option Int
deriving DecidableEq, Repr

/-- The empty static data of a node instance that has never run. -/
def StaticData.initial : StaticData :=
  { processedDataset := none, datasetId := none, shuffleRows := none,
    shuffleSeed := none, cursor := none }

/-- The reload decision of the row trigger (lines 89–93 of
`LangWatchDatasetRowTrigger.node.ts`):

`processingOptions.resetProgress === true || !staticData.processedDataset ||
staticData.datasetId !== datasetId || staticData.shuffleRows !== shuffleRows ||
staticData.shuffleSeed !== processingOptions.shuffleSeed`

where `shuffleRows` is the destructured option defaulted to `false`, while
`shuffleSeed` is compared raw (no default applied). -/
def needsReload (opts : ProcessingOptions) (datasetId : String) (sd : StaticData) : Bool :=
  decide (opts.resetProgress = some true) ||
  decide (sd.processedDataset = none) ||
  decide (sd.datasetId ≠ some datasetId) ||
  decide (sd.shuffleRows ≠ some (opts.shuffleRows.getD false)) ||
  decide (sd.shuffleSeed ≠ opts.shuffleSeed)

/-! ## Shuffle algorithm -/

/-- JavaScript `seed >>> 0`: coercion of an integer to an unsigned 32-bit
value. -/
def toUint32 (n : Int) : Nat := (n % 4294967296).toNat

/-- One advance of the xorshift32 generator used by both triggers, on the
unsigned 32-bit view of the state:
`s ^= s << 13; s ^= s >>> 17; s ^= s << 5`.
JavaScript `<<` works on 32-bit words, hence the explicit `% 2^32`;
`>>> 17` on the unsigned view is division by `2^17`; the xor of two values
below `2^32` stays below `2^32`. -/
def xorshift32Step (s : Nat) : Nat :=
  let s1 := s ^^^ ((s <<< 13) % 4294967296)
  let s2 := s1 ^^^ (s1 >>> 17)
  s2 ^^^ ((s2 <<< 5) % 4294967296)

/-- Round to nearest, ties to even, of the rational `p / q` (for `q > 0`). -/
def rne (p q : Nat) : Nat :=
  let m := p / q
  let r := p % q
  if 2 * r < q then m
  else if q < 2 * r then m + 1
  else if m % 2 = 0 then m else m + 1

/-- `⌊log₂ n⌋` (0 for `n = 0`), by structural recursion on a fuel that the
halving can never exhaust: for `n ≥ 1` the recursion stops after
`⌊log₂ n⌋ < n` steps. -/
def log2Fuel : Nat → Nat → Nat
  | 0, _ => 0
  | f + 1, n => if 2 ≤ n then log2Fuel f (n / 2) + 1 else 0

/-- `⌊log₂ n⌋` for `n ≥ 1` (and 0 at 0), kernel-computable. -/
def natLog2 (n : Nat) : Nat := log2Fuel n n

/-- `⌊log₂ (num/den)⌋` for positive `num`, `den`. -/
def ratExp (num den : Nat) : Int :=
  if den * 2 ^ natLog2 num ≤ num * 2 ^ natLog2 den then (natLog2 num : Int) - natLog2 den
  else (natLog2 num : Int) - natLog2 den - 1

/-- The IEEE-754 binary64 value nearest to `num/den` (round to nearest,
ties to even), represented exactly as a pair `(m, e)` denoting the rational
`m · 2^(e-52)`; `(0, 0)` for `num = 0`.  The exponent is unbounded: the
engine's values never approach the overflow or subnormal range. -/
def floatOfRat (num den : Nat) : Nat × Int :=
  if num = 0 then (0, 0)
  else
    let e := ratExp num den
    if e ≤ 52 then (rne (num * 2 ^ (52 - e).toNat) den, e)
    else (rne num (den * 2 ^ (e - 52).toNat), e)

/-- The binary64 product of the double `m · 2^(e-52)` with the exact small
integer `k` (correctly rounded). -/
def floatMulNat (k : Nat) : Nat × Int → Nat × Int
  | (m, e) =>
    if e ≤ 52 then floatOfRat (m * k) (2 ^ (52 - e).toNat)
    else floatOfRat (m * k * 2 ^ (e - 52).toNat) 1

/-- `Math.floor` of the double `m · 2^(e-52)` (non-negative here). -/
def floatFloor : Nat × Int → Nat
  | (m, e) => if e ≤ 52 then m / 2 ^ (52 - e).toNat else m * 2 ^ (e - 52).toNat

/-- `Math.round` of the double `m · 2^(e-52)`: the closest integer, half
rounded toward `+∞` — `⌊y + 1/2⌋` on the exact value of the double. -/
def floatRound : Nat × Int → Nat
  | (m, e) =>
    if e ≤ 52 then (2 * m + 2 ^ (52 - e).toNat) / (2 ^ (52 - e).toNat * 2)
    else m * 2 ^ (e - 52).toNat

/-- `Math.round(((cur)/total) * 100)` exactly as the program computes it:
the division and the product are each rounded to binary64, then
`Math.round` is applied to the resulting double. -/
def jsPercentage (cur total : Nat) : Nat :=
  floatRound (floatMulNat 100 (floatOfRat cur total))

/-- One draw of the seeded random source:
`return ((s >>> 0) % 1000000) / 1000000` after advancing the state, and the
caller's `Math.floor(random() * (i + 1))` applied to the result — both the
division by `10^6` and the product with the bound rounded to binary64.
Returns the drawn index together with the new generator state. -/
def seededDraw (s : Nat) (bound : Nat) : Nat × Nat :=
  let s' := xorshift32Step s
  (floatFloor (floatMulNat bound (floatOfRat (s' % 1000000) 1000000)), s')

/-- The swap `[arr[i], arr[j]] = [arr[j], arr[i]]` on a list; a no-op when
either index is out of range (which never happens in the loops below). -/
def listSwap (l : List α) (i j : Nat) : List α :=
  match l[i]?, l[j]? with
  | some a, some b => (l.set i b).set j a
  | _, _ => l

/-- The backward Fisher–Yates loop
`for (let i = length - 1; i > 0; i--) { const j = ⌊random()·(i+1)⌋; swap i j }`,
parametrised by the random source: `draw st bound` returns the index drawn
from `[0, bound)` (in the code, `Math.floor(random() * (i + 1))`) and the
next source state.  The first argument counts the loop variable `i` down. -/
def fyGo (draw : σ → Nat → Nat × σ) : Nat → List α → σ → List α × σ
  | 0, l, s => (l, s)
  | i + 1, l, s =>
    let p := draw s (i + 2)
    fyGo draw i (listSwap l (i + 1) p.1) p.2

/-- In-place backward Fisher–Yates shuffle of a list with the given random
source and initial source state. -/
def fisherYates (draw : σ → Nat → Nat × σ) (l : List α) (s : σ) : List α :=
  (fyGo draw (l.length - 1) l s).1

/-- An ambient (unseeded `Math.random`) source: an arbitrary stream of drawn
indices, `ambient k bound` being the index produced by the `k`-th call with
the given bound.  The state is the number of calls made so far. -/
def ambientDraw (ambient : Nat → Nat → Nat) (k : Nat) (bound : Nat) : Nat × Nat :=
  (ambient k bound, k + 1)

/-- The shuffle block of the row trigger (lines 113–129 of
`LangWatchDatasetRowTrigger.node.ts`): `const seed =
processingOptions.shuffleSeed || 0`; when the seed is non-zero, a fresh
xorshift32 generator seeded with `seed >>> 0` replaces `Math.random`; then
one backward Fisher–Yates pass. -/
def rowTriggerShuffle (shuffleSeed : Option Int) (ambient : Nat → Nat → Nat)
    (l : List α) : List α :=
  let seed : Int := shuffleSeed.getD 0
  if seed ≠ 0 then fisherYates seededDraw l (toUint32 seed)
  else fisherYates (ambientDraw ambient) l 0

/-- The shuffle block of the batch trigger (lines 114–130 of
`LangWatchDatasetBatchTrigger.node.ts`); textually identical to the row
trigger's. -/
def batchTriggerShuffle (shuffleSeed : Option Int) (ambient : Nat → Nat → Nat)
    (l : List α) : List α :=
  let seed : Int := shuffleSeed.getD 0
  if seed ≠ 0 then fisherYates seededDraw l (toUint32 seed)
  else fisherYates (ambientDraw ambient) l 0

/-! ## Windowing -/

/-- JavaScript `Array.prototype.slice(start, end)`: a negative bound counts
from the end of the array, and both bounds are clamped to `[0, length]`. -/
def jsSlice (l : List α) (start fin : Int) : List α :=
  let len : Int := l.length
  let k : Int := if start < 0 then max (len + start) 0 else min start len
  let f : Int := if fin < 0 then max (len + fin) 0 else min fin len
  (l.drop k.toNat).take (f - k).toNat

/-- The window of the row trigger (lines 140–146 of
`LangWatchDatasetRowTrigger.node.ts`):
`startIndex = max(0, startRow)`;
`endIndex = endRow !== undefined && endRow !== -1 ? min(endRow+1, length) : length`;
`slice(startIndex, endIndex)`; then, when `stepSize > 1`, keep the positions
of the sliced sequence divisible by `stepSize`. -/
def rowWindow (startRow : Int) (endRow : Option Int) (stepSize : Int)
    (entries : List α) : List α :=
  let startIndex : Int := max 0 startRow
  let endIndex : Int :=
    match endRow with
    | some e => if e ≠ -1 then min (e + 1) (entries.length : Int) else (entries.length : Int)
    | none => (entries.length : Int)
  let sliced := jsSlice entries startIndex endIndex
  if stepSize > 1 then
    (sliced.enum.filter (fun p => (p.1 : Int) % stepSize == 0)).map Prod.snd
  else sliced

/-- The window of the batch trigger (lines 132–138 of
`LangWatchDatasetBatchTrigger.node.ts`); textually identical to the row
trigger's. -/
def batchWindow (startRow : Int) (endRow : Option Int) (stepSize : Int)
    (entries : List α) : List α :=
  let startIndex : Int := max 0 startRow
  let endIndex : Int :=
    match endRow with
    | some e => if e ≠ -1 then min (e + 1) (entries.length : Int) else (entries.length : Int)
    | none => (entries.length : Int)
  let sliced := jsSlice entries startIndex endIndex
  if stepSize > 1 then
    (sliced.enum.filter (fun p => (p.1 : Int) % stepSize == 0)).map Prod.snd
  else sliced

/-- `effectiveTotal = limitRows ? Math.min(maxRows, length) : length`
(line 149 of the row trigger, line 140 of the batch trigger). -/
def effectiveTotal (limitRows : Bool) (maxRows : Int) (len : Nat) : Int :=
  if limitRows then min maxRows (len : Int) else (len : Int)

/-- The specification's percentage formula `round(num/den)` on the exact
rational (round half up, `⌊num/den + 1/2⌋ = (2·num + den) / (2·den)` for
non-negative operands).  The program instead computes `Math.round` of a
binary64 intermediate (`jsPercentage`); the two differ at inputs such as
`23/40` (57 in binary64 against the exact 58). -/
def roundHalfUp (num den : Int) : Int := (2 * num + den) / (2 * den)

/-! ## Emission (row trigger) -/

/-- The errors thrown by the row trigger's `execute`:
`CollectionEmpty` ("No rows found in dataset"), `RowsExhausted`
("All rows have been processed"), and the wrapped transport failure
("Failed to fetch dataset row"). -/
inductive RowTriggerError
  | collectionEmpty
  | rowsExhausted
  | transport
deriving DecidableEq, Repr

/-- The `_progress` block of the output. -/
structure RowProgress where
  current : Int
  total : Int
  percentage : Int
  remaining : Int
deriving DecidableEq, Repr

/-- The output record of one row trigger invocation (`outputData`, lines
161–179; `rowsLeft` models the `_rowsLeft` field). -/
structure RowTriggerOutput where
  row_number : Int
  rowsLeft : Int
  progress : RowProgress
  entry : String
  datasetId : String
  projectId : String
  row_id : String
  createdAt : String
  updatedAt : String
deriving DecidableEq, Repr

/-- Placeholder for the JavaScript `undefined` read that would occur on an
out-of-range row access; never reached on the paths the theorems use. -/
def defaultRow : LangWatchDatasetRow :=
  { id := "", datasetId := "", projectId := "", entry := "", createdAt := "", updatedAt := "" }

/-- The outcome of `this.helpers.requestWithAuthentication` for
`GET /api/dataset/{id}`: a transport/auth failure, or a parsed body whose
`data` field is `none` when missing or not an array, and `some rows`
otherwise. -/
inductive FetchResult
  | failure
  | success (payload : Option (List LangWatchDatasetRow))
deriving DecidableEq, Repr

/-- Lines 140–184 of the row trigger: windowing of the (cached or fresh)
snapshot, cursor read (`Math.max(0, staticData.cursor ?? 0)`), effective
total, exhaustion check, output shaping, and cursor advance.  Returns the
invocation result together with the static data as left by the invocation. -/
def emitStep (limitRows : Bool) (maxRows startRow : Int) (endRow : Option Int)
    (stepSize : Int) (snapshot : List LangWatchDatasetRow) (sd : StaticData) :
    Except RowTriggerError RowTriggerOutput × StaticData :=
  let ws := rowWindow startRow endRow stepSize snapshot
  let currentIndex : Int := max 0 (sd.cursor.getD 0)
  let total : Int := effectiveTotal limitRows maxRows ws.length
  if total ≤ currentIndex then
    (.error .rowsExhausted, sd)
  else
    let row := (ws[currentIndex.toNat]?).getD defaultRow
    let rowsLeft : Int := max 0 (total - (currentIndex + 1))
    (.ok {
      row_number := currentIndex
      rowsLeft := rowsLeft
      progress := {
        current := currentIndex + 1
        total := total
        percentage := (jsPercentage (currentIndex + 1).toNat total.toNat : Int)
        remaining := rowsLeft }
      entry := row.entry
      datasetId := row.datasetId
      projectId := row.projectId
      row_id := row.id
      createdAt := row.createdAt
      updatedAt := row.updatedAt },
     { sd with cursor := some (currentIndex + 1) })

/-- One invocation of `LangWatchDatasetRowTrigger.execute` (lines 65–192),
as a function of the node parameters, the fetch outcome (used only when a
reload is needed), the ambient random stream (used only by an unseeded
shuffle), and the workflow static data.  On a reload the static data record
is rewritten (snapshot, dataset id, shuffle flag, normalised seed
`shuffleSeed || 0`, cursor 0) before the emission phase runs; the
`CollectionEmpty` and transport errors are thrown before any of those
writes. -/
def executeRowTrigger (datasetId : String) (opts : ProcessingOptions)
    (fetch : FetchResult) (ambient : Nat → Nat → Nat) (sd : StaticData) :
    Except RowTriggerError RowTriggerOutput × StaticData :=
  let limitRows := opts.limitRows.getD false
  let maxRows := opts.maxRows.getD 10
  let startRow := opts.startRow.getD 0
  let stepSize := opts.stepSize.getD 1
  let shuffleRows := opts.shuffleRows.getD false
  if needsReload opts datasetId sd then
    match fetch with
    | .failure => (.error .transport, sd)
    | .success payload =>
      let entries0 := payload.getD []
      if entries0.isEmpty then (.error .collectionEmpty, sd)
      else
        let entries :=
          if shuffleRows then rowTriggerShuffle opts.shuffleSeed ambient entries0
          else entries0
        let sd1 : StaticData := {
          processedDataset := some entries
          datasetId := some datasetId
          shuffleRows := some shuffleRows
          shuffleSeed := some (opts.shuffleSeed.getD 0)
          cursor := some 0 }
        emitStep limitRows maxRows startRow opts.endRow stepSize entries sd1
  else
    emitStep limitRows maxRows startRow opts.endRow stepSize
      (sd.processedDataset.getD []) sd

/-! ## Batch trigger -/

/-- Lines 132–141 of `LangWatchDatasetBatchTrigger.node.ts`: window the
fetched rows, compute the effective total, and hard-truncate the row list
with `rows.slice(0, effectiveTotal)`.  Returns the in-memory row list the
emission loop iterates over, together with the effective total used for
progress reporting. -/
def batchTriggerRows (startRow : Int) (endRow : Option Int) (stepSize : Int)
    (limitRows : Bool) (maxRows : Int) (rows : List α) : List α × Int :=
  let ws := batchWindow startRow endRow stepSize rows
  let total := effectiveTotal limitRows maxRows ws.length
  (jsSlice ws 0 total, total)

/-! ## Specification-side definitions and concrete fixtures -/

/-- The Working Set computation as described by the specification's words
(§4.3 / claim text): `startIndex = max(0, startRow)`; `endIndex` is the
snapshot length when `endRow` is undefined or the `-1` sentinel and
`min(endRow+1, length)` otherwise; then "slicing `[startIndex, endIndex)`"
read mathematically as the sub-sequence of positions `startIndex ≤ p <
endIndex` (empty whenever `endIndex ≤ startIndex`, in particular for a
negative `endIndex`); then the step filter.  To be compared with
`rowWindow`/`batchWindow`, which use JavaScript `slice` semantics. -/
def claimedWindow (startRow : Int) (endRow : Option Int) (stepSize : Int)
    (entries : List α) : List α :=
  let startIndex : Int := max 0 startRow
  let endIndex : Int :=
    match endRow with
    | some e => if e ≠ -1 then min (e + 1) (entries.length : Int) else (entries.length : Int)
    | none => (entries.length : Int)
  let sliced := (entries.take endIndex.toNat).drop startIndex.toNat
  if stepSize > 1 then
    (sliced.enum.filter (fun p => (p.1 : Int) % stepSize == 0)).map Prod.snd
  else sliced

/-- A concrete dataset row used by the concrete scenarios. -/
def mkRow (s : String) : LangWatchDatasetRow :=
  { id := s, datasetId := "ds1", projectId := "p1", entry := s,
    createdAt := "", updatedAt := "" }

/-- Three concrete rows. -/
def exRows3 : List LangWatchDatasetRow := [mkRow "r0", mkRow "r1", mkRow "r2"]

/-- Four concrete rows. -/
def exRows4 : List LangWatchDatasetRow :=
  [mkRow "r0", mkRow "r1", mkRow "r2", mkRow "r3"]

/-- Five concrete rows (the §8 scenario collection `ds1`). -/
def exRows5 : List LangWatchDatasetRow :=
  [mkRow "r0", mkRow "r1", mkRow "r2", mkRow "r3", mkRow "r4"]

/-- Ten concrete rows `r0 … r9` (the P4 windowing example). -/
def exRows10 : List LangWatchDatasetRow :=
  [mkRow "r0", mkRow "r1", mkRow "r2", mkRow "r3", mkRow "r4",
   mkRow "r5", mkRow "r6", mkRow "r7", mkRow "r8", mkRow "r9"]

/-- The §8 scenario options: `startRow=0, endRow=all, stepSize=1,
limitRows=false, shuffleRows=false`, with `shuffleSeed` at its documented
default `0` and no reset requested. -/
def scenarioOpts : ProcessingOptions :=
  { limitRows := some false, maxRows := none, startRow := some 0,
    endRow := none, stepSize := some 1, shuffleRows := some false,
    shuffleSeed := some 0, resetProgress := none }

/-- The same options with the `shuffleSeed` option never added by the user
(the default situation, since the seed field is hidden unless shuffling is
enabled): `processingOptions.shuffleSeed` is `undefined`. -/
def scenarioOptsNoSeed : ProcessingOptions :=
  { limitRows := some false, maxRows := none, startRow := some 0,
    endRow := none, stepSize := some 1, shuffleRows := some false,
    shuffleSeed := none, resetProgress := none }

/-- A fixed ambient random stream (irrelevant to the unshuffled scenarios). -/
def noAmbient : Nat → Nat → Nat := fun _ _ => 0

/-- The result of the `(n+1)`-th consecutive invocation of the row trigger
with fixed parameters and fetch outcome, starting from static data `sd`. -/
def nthCall (datasetId : String) (opts : ProcessingOptions) (fetch : FetchResult)
    (ambient : Nat → Nat → Nat) (sd : StaticData) :
    Nat → Except RowTriggerError RowTriggerOutput × StaticData
  | 0 => executeRowTrigger datasetId opts fetch ambient sd
  | n + 1 =>
    executeRowTrigger datasetId opts fetch ambient
      (nthCall datasetId opts fetch ambient sd n).2

/-- Projection of an invocation result to `(row_number, _rowsLeft)`. -/
def emittedRowInfo : Except RowTriggerError RowTriggerOutput → Option (Int × Int)
  | .ok o => some (o.row_number, o.rowsLeft)
  | .error _ => none

/-- Projection of an invocation result to `_progress.percentage`. -/
def emittedPercentage : Except RowTriggerError RowTriggerOutput → Option Int
  | .ok o => some o.progress.percentage
  | .error _ => none

/-- A cached static state matching `scenarioOpts` on dataset `ds1` with the
four-row snapshot and cursor 0. -/
def sdCached4 : StaticData :=
  { processedDataset := some exRows4, datasetId := some "ds1",
    shuffleRows := some false, shuffleSeed := some 0, cursor := some 0 }

/-- A cached static state matching `scenarioOpts` on dataset `ds1` with the
five-row snapshot and cursor 5 (all five rows already emitted). -/
def sdExhausted5 : StaticData :=
  { processedDataset := some exRows5, datasetId := some "ds1",
    shuffleRows := some false, shuffleSeed := some 0, cursor := some 5 }

/-- Forty concrete rows (for the percentage divergence at emission 23 of
40). -/
def exRows40 : List LangWatchDatasetRow :=
  (List.range 40).map (fun k => mkRow (toString k))

/-- A cached static state matching `scenarioOpts` on dataset `ds1` with the
forty-row snapshot and cursor 22 (the next emission is number 23 of 40). -/
def sdCached22 : StaticData :=
  { processedDataset := some exRows40, datasetId := some "ds1",
    shuffleRows := some false, shuffleSeed := some 0, cursor := some 22 }

/-! ## Helper lemmas -/

/-- Setting position `i` replaces one occurrence of `l[i]` by `b`, stated
additively on occurrence counts. -/
theorem count_set_add {α : Type} [DecidableEq α] :
    ∀ (l : List α) (i : Nat) (b c : α) (hi : i < l.length),
      (l.set i b).count c + (if l[i] = c then 1 else 0)
        = l.count c + (if b = c then 1 else 0)
  | [], i, _, _, hi => by simp at hi
  | x :: t, 0, b, c, _ => by
    simp only [List.set_cons_zero, List.count_cons, List.getElem_cons_zero, beq_iff_eq]
    by_cases h1 : b = c <;> by_cases h2 : x = c <;> simp [h1, h2]
  | x :: t, i + 1, b, c, hi => by
    have ih := count_set_add t i b c (by simpa using hi)
    simp only [List.set_cons_succ, List.count_cons, List.getElem_cons_succ, beq_iff_eq]
    omega

/-- The swap of two positions is a permutation. -/
theorem listSwap_perm {α : Type} (l : List α) (i j : Nat) :
    (listSwap l i j).Perm l := by
  classical
  unfold listSwap
  split
  · rename_i a b hi hj
    obtain ⟨hilt, hie⟩ := List.getElem?_eq_some_iff.mp hi
    obtain ⟨hjlt, hje⟩ := List.getElem?_eq_some_iff.mp hj
    by_cases hij : i = j
    · subst hij
      rw [List.set_set, List.perm_iff_count]
      intro c
      have h1 := count_set_add l i a c hilt
      rw [hie] at h1
      omega
    · rw [List.perm_iff_count]
      intro c
      have hjlt2 : j < (l.set i b).length := by simpa using hjlt
      have e1 := count_set_add (l.set i b) j a c hjlt2
      have e2 := count_set_add l i b c hilt
      have hgb : (l.set i b)[j] = l[j] := List.getElem_set_ne hij hjlt2
      rw [hgb, hje] at e1
      rw [hie] at e2
      omega
  · exact List.Perm.refl l

/-- Every run of the backward Fisher–Yates loop permutes its input,
whatever the random source does. -/
theorem fyGo_perm {α σ : Type} (draw : σ → Nat → Nat × σ) :
    ∀ (n : Nat) (l : List α) (s : σ), ((fyGo draw n l s).1).Perm l
  | 0, l, _ => List.Perm.refl l
  | n + 1, l, _ =>
    (fyGo_perm draw n _ _).trans (listSwap_perm l (n + 1) _)

/-- `fisherYates` permutes its input for every random source. -/
theorem fisherYates_perm {α σ : Type} (draw : σ → Nat → Nat × σ)
    (l : List α) (s : σ) : (fisherYates draw l s).Perm l :=
  fyGo_perm draw (l.length - 1) l s

/-- C10: for every input sequence and every random source (any seed value,
defined or not, and any ambient `Math.random` stream), the in-place backward
Fisher–Yates loops of the row trigger and of the batch trigger produce a
permutation of their input: same length, same multiset of elements, nothing
duplicated or lost. -/
theorem shuffles_are_permutations {α : Type} (shuffleSeed : Option Int)
    (ambient : Nat → Nat → Nat) (l : List α) :
    (rowTriggerShuffle shuffleSeed ambient l).Perm l ∧
    (batchTriggerShuffle shuffleSeed ambient l).Perm l := by
  constructor
  · dsimp only [rowTriggerShuffle]
    split
    · exact fisherYates_perm _ _ _
    · exact fisherYates_perm _ _ _
  · dsimp only [batchTriggerShuffle]
    split
    · exact fisherYates_perm _ _ _
    · exact fisherYates_perm _ _ _

/-- C3: for a fixed non-zero seed the seeded shuffle is a pure function of
(seed, input) — the ambient random stream is irrelevant — and the two
independent implementations in the row trigger and in the batch trigger
produce the identical permutation. -/
theorem seeded_shuffle_deterministic {α : Type} (seed : Int) (hs : seed ≠ 0)
    (ambient1 ambient2 : Nat → Nat → Nat) (l : List α) :
    rowTriggerShuffle (some seed) ambient1 l
      = batchTriggerShuffle (some seed) ambient2 l := by
  unfold rowTriggerShuffle batchTriggerShuffle
  simp [hs]

/-- Witness for C3 at seed 42 on `[0,…,9]`, with two different ambient
streams. -/
theorem seeded_shuffle_deterministic_witness :
    (42 : Int) ≠ 0 ∧
    rowTriggerShuffle (some 42) (fun _ _ => 0) [0, 1, 2, 3, 4, 5, 6, 7, 8, 9]
      = batchTriggerShuffle (some 42) (fun k b => k + b) [0, 1, 2, 3, 4, 5, 6, 7, 8, 9] :=
  ⟨by decide, seeded_shuffle_deterministic 42 (by decide) _ _ _⟩

/-- On a matching reload key the execute path is the emission phase over the
cached snapshot. -/
theorem execute_noreload (dsId : String) (opts : ProcessingOptions)
    (fetch : FetchResult) (ambient : Nat → Nat → Nat) (sd : StaticData)
    (h : needsReload opts dsId sd = false) :
    executeRowTrigger dsId opts fetch ambient sd
      = emitStep (opts.limitRows.getD false) (opts.maxRows.getD 10)
          (opts.startRow.getD 0) opts.endRow (opts.stepSize.getD 1)
          (sd.processedDataset.getD []) sd := by
  dsimp only [executeRowTrigger]
  simp [h]

/-- On a reload with a transport failure the invocation fails with the
wrapped transport error and the static data is untouched. -/
theorem execute_reload_failure (dsId : String) (opts : ProcessingOptions)
    (ambient : Nat → Nat → Nat) (sd : StaticData)
    (h : needsReload opts dsId sd = true) :
    executeRowTrigger dsId opts .failure ambient sd = (.error .transport, sd) := by
  dsimp only [executeRowTrigger]
  simp [h]

/-- On a reload with a missing/non-array/empty payload the invocation fails
with `CollectionEmpty` and the static data is untouched. -/
theorem execute_reload_empty (dsId : String) (opts : ProcessingOptions)
    (payload : Option (List LangWatchDatasetRow)) (ambient : Nat → Nat → Nat)
    (sd : StaticData) (h : needsReload opts dsId sd = true)
    (hp : payload.getD [] = []) :
    executeRowTrigger dsId opts (.success payload) ambient sd
      = (.error .collectionEmpty, sd) := by
  dsimp only [executeRowTrigger]
  simp [h, hp]

/-- On a reload with a non-empty payload the snapshot is (optionally
shuffled and) recorded together with the normalised reload key and cursor 0,
and the emission phase runs on the fresh state. -/
theorem execute_reload_success (dsId : String) (opts : ProcessingOptions)
    (rows : List LangWatchDatasetRow) (ambient : Nat → Nat → Nat)
    (sd : StaticData) (h : needsReload opts dsId sd = true) (hr : rows ≠ []) :
    executeRowTrigger dsId opts (.success (some rows)) ambient sd
      = emitStep (opts.limitRows.getD false) (opts.maxRows.getD 10)
          (opts.startRow.getD 0) opts.endRow (opts.stepSize.getD 1)
          (if opts.shuffleRows.getD false then
             rowTriggerShuffle opts.shuffleSeed ambient rows
           else rows)
          { processedDataset := some (if opts.shuffleRows.getD false then
               rowTriggerShuffle opts.shuffleSeed ambient rows
             else rows)
            datasetId := some dsId
            shuffleRows := some (opts.shuffleRows.getD false)
            shuffleSeed := some (opts.shuffleSeed.getD 0)
            cursor := some 0 } := by
  dsimp only [executeRowTrigger]
  simp [h, hr]

/-- The emission phase fails with `RowsExhausted`, leaving the static data
as given, exactly when the consumed cursor has reached the effective
total. -/
theorem emitStep_exhausted (lim : Bool) (m s : Int) (e : Option Int) (st : Int)
    (snap : List LangWatchDatasetRow) (sd : StaticData)
    (h : effectiveTotal lim m (rowWindow s e st snap).length ≤ max 0 (sd.cursor.getD 0)) :
    emitStep lim m s e st snap sd = (.error .rowsExhausted, sd) := by
  dsimp only [emitStep]
  rw [if_pos h]

/-- The emission phase below the effective total emits the working-set row
at the consumed cursor and advances the stored cursor. -/
theorem emitStep_success (lim : Bool) (m s : Int) (e : Option Int) (st : Int)
    (snap : List LangWatchDatasetRow) (sd : StaticData) (T c : Int)
    (hT : T = effectiveTotal lim m (rowWindow s e st snap).length)
    (hc : c = max 0 (sd.cursor.getD 0)) (h : c < T) :
    emitStep lim m s e st snap sd =
      (.ok {
        row_number := c
        rowsLeft := max 0 (T - (c + 1))
        progress := {
          current := c + 1
          total := T
          percentage := (jsPercentage (c + 1).toNat T.toNat : Int)
          remaining := max 0 (T - (c + 1)) }
        entry := (((rowWindow s e st snap)[c.toNat]?).getD defaultRow).entry
        datasetId := (((rowWindow s e st snap)[c.toNat]?).getD defaultRow).datasetId
        projectId := (((rowWindow s e st snap)[c.toNat]?).getD defaultRow).projectId
        row_id := (((rowWindow s e st snap)[c.toNat]?).getD defaultRow).id
        createdAt := (((rowWindow s e st snap)[c.toNat]?).getD defaultRow).createdAt
        updatedAt := (((rowWindow s e st snap)[c.toNat]?).getD defaultRow).updatedAt },
       { sd with cursor := some (c + 1) }) := by
  subst hT hc
  dsimp only [emitStep]
  rw [if_neg (by omega)]

/-- C2: a collection of 5 rows with `startRow=0, endRow=all, stepSize=1,
limitRows=false, shuffleRows=false` (and the seed at its documented default
0): five consecutive resumable-lifecycle invocations emit `row_number`
0,1,2,3,4 with `_rowsLeft` 4,3,2,1,0, and the sixth fails with
`RowsExhausted`; in general, once the persisted cursor equals the effective
total of the current window — as it does after exactly that many successful
emissions — an invocation with a matching reload key fails with
`RowsExhausted`. -/
theorem scenario_five_rows_exhaustion :
    (emittedRowInfo (nthCall "ds1" scenarioOpts (FetchResult.success (some exRows5))
        noAmbient StaticData.initial 0).1 = some (0, 4) ∧
     emittedRowInfo (nthCall "ds1" scenarioOpts (FetchResult.success (some exRows5))
        noAmbient StaticData.initial 1).1 = some (1, 3) ∧
     emittedRowInfo (nthCall "ds1" scenarioOpts (FetchResult.success (some exRows5))
        noAmbient StaticData.initial 2).1 = some (2, 2) ∧
     emittedRowInfo (nthCall "ds1" scenarioOpts (FetchResult.success (some exRows5))
        noAmbient StaticData.initial 3).1 = some (3, 1) ∧
     emittedRowInfo (nthCall "ds1" scenarioOpts (FetchResult.success (some exRows5))
        noAmbient StaticData.initial 4).1 = some (4, 0) ∧
     (nthCall "ds1" scenarioOpts (FetchResult.success (some exRows5))
        noAmbient StaticData.initial 5).1 = .error .rowsExhausted) ∧
    (∀ (dsId : String) (opts : ProcessingOptions) (fetch : FetchResult)
       (ambient : Nat → Nat → Nat) (sd : StaticData),
      needsReload opts dsId sd = false →
      sd.cursor = some (effectiveTotal (opts.limitRows.getD false) (opts.maxRows.getD 10)
        (rowWindow (opts.startRow.getD 0) opts.endRow (opts.stepSize.getD 1)
          (sd.processedDataset.getD [])).length) →
      (executeRowTrigger dsId opts fetch ambient sd).1 = .error .rowsExhausted) := by
  constructor
  · exact ⟨rfl, rfl, rfl, rfl, rfl, rfl⟩
  · intro dsId opts fetch ambient sd hnr hcur
    rw [execute_noreload dsId opts fetch ambient sd hnr]
    rw [emitStep_exhausted _ _ _ _ _ _ _ (by rw [hcur]; exact le_max_right _ _)]

/-- Witness for the general exhaustion clause of C2: with the five-row
snapshot cached under a matching key and cursor 5, the next invocation fails
with `RowsExhausted`. -/
theorem scenario_five_rows_exhaustion_witness :
    (executeRowTrigger "ds1" scenarioOpts (FetchResult.success (some exRows5))
      noAmbient sdExhausted5).1 = .error .rowsExhausted :=
  scenario_five_rows_exhaustion.2 "ds1" scenarioOpts
    (FetchResult.success (some exRows5)) noAmbient sdExhausted5
    (by decide) (by decide)

/-- C5 as stated is refuted by the binary64 percentage computation: with a
forty-row window and cursor 22 — emission 23 of 40 — the program evaluates
`(23/40)*100` in doubles to 57.49999999999999289…, so `Math.round` emits
percentage 57, while the claim's exact `round(100·23/40) = round(57.5)`
is 58. -/
theorem percentage_claim_counterexample :
    emittedPercentage (executeRowTrigger "ds1" scenarioOpts
        (FetchResult.success (some exRows40)) noAmbient sdCached22).1 = some 57 ∧
    roundHalfUp (100 * 23) 40 = 58 ∧
    emittedPercentage (executeRowTrigger "ds1" scenarioOpts
        (FetchResult.success (some exRows40)) noAmbient sdCached22).1
      ≠ some (roundHalfUp (100 * 23) 40) :=
  ⟨by decide, by decide, by decide⟩

/-- C5 (amended): with a matching reload key, an invocation fails with
`RowsExhausted` iff the consumed cursor `c` has reached the effective total
`T`; otherwise it emits the working-set row at position `c` with
`_rowsLeft = max(0, T-(c+1))`, `_progress = {current: c+1, total: T,
percentage, remaining: T-(c+1)}` — where `percentage` is
`Math.round(((c+1)/T)·100)` computed in binary64, which can differ by one
from the exact `round(100·(c+1)/T)` (57 against 58 at `c+1=23, T=40`) — and
advances the persisted cursor to `c+1`; in particular, over a four-row
window, emissions 1..4 report percentages 25, 50, 75, 100 and `_rowsLeft`
3, 2, 1, 0. -/
theorem emission_contract (dsId : String) (opts : ProcessingOptions)
    (fetch : FetchResult) (ambient : Nat → Nat → Nat) (sd : StaticData)
    (T c : Int)
    (hnr : needsReload opts dsId sd = false)
    (hT : T = effectiveTotal (opts.limitRows.getD false) (opts.maxRows.getD 10)
      (rowWindow (opts.startRow.getD 0) opts.endRow (opts.stepSize.getD 1)
        (sd.processedDataset.getD [])).length)
    (hc : c = max 0 (sd.cursor.getD 0)) :
    ((executeRowTrigger dsId opts fetch ambient sd).1 = .error .rowsExhausted ↔ T ≤ c) ∧
    (c < T → ∃ row,
      (rowWindow (opts.startRow.getD 0) opts.endRow (opts.stepSize.getD 1)
        (sd.processedDataset.getD []))[c.toNat]? = some row ∧
      executeRowTrigger dsId opts fetch ambient sd =
        (.ok {
          row_number := c
          rowsLeft := max 0 (T - (c + 1))
          progress := {
            current := c + 1
            total := T
            percentage := (jsPercentage (c + 1).toNat T.toNat : Int)
            remaining := T - (c + 1) }
          entry := row.entry
          datasetId := row.datasetId
          projectId := row.projectId
          row_id := row.id
          createdAt := row.createdAt
          updatedAt := row.updatedAt },
         { sd with cursor := some (c + 1) })) ∧
    (emittedPercentage (nthCall "ds1" scenarioOpts (FetchResult.success (some exRows4))
        noAmbient StaticData.initial 0).1 = some 25 ∧
     emittedPercentage (nthCall "ds1" scenarioOpts (FetchResult.success (some exRows4))
        noAmbient StaticData.initial 1).1 = some 50 ∧
     emittedPercentage (nthCall "ds1" scenarioOpts (FetchResult.success (some exRows4))
        noAmbient StaticData.initial 2).1 = some 75 ∧
     emittedPercentage (nthCall "ds1" scenarioOpts (FetchResult.success (some exRows4))
        noAmbient StaticData.initial 3).1 = some 100 ∧
     emittedRowInfo (nthCall "ds1" scenarioOpts (FetchResult.success (some exRows4))
        noAmbient StaticData.initial 0).1 = some (0, 3) ∧
     emittedRowInfo (nthCall "ds1" scenarioOpts (FetchResult.success (some exRows4))
        noAmbient StaticData.initial 1).1 = some (1, 2) ∧
     emittedRowInfo (nthCall "ds1" scenarioOpts (FetchResult.success (some exRows4))
        noAmbient StaticData.initial 2).1 = some (2, 1) ∧
     emittedRowInfo (nthCall "ds1" scenarioOpts (FetchResult.success (some exRows4))
        noAmbient StaticData.initial 3).1 = some (3, 0)) := by
  have hex := execute_noreload dsId opts fetch ambient sd hnr
  refine ⟨?_, ?_, rfl, rfl, rfl, rfl, rfl, rfl, rfl, rfl⟩
  · constructor
    · intro hres
      by_contra hlt
      push_neg at hlt
      rw [hex, emitStep_success _ _ _ _ _ _ _ T c hT hc hlt] at hres
      exact absurd hres (by simp)
    · intro hge
      rw [hex, emitStep_exhausted _ _ _ _ _ _ _ (by omega)]
  · intro hlt
    have hc0 : 0 ≤ c := by omega
    have hTlen : T ≤ ((rowWindow (opts.startRow.getD 0) opts.endRow (opts.stepSize.getD 1)
        (sd.processedDataset.getD [])).length : Int) := by
      rw [hT]
      unfold effectiveTotal
      split <;> omega
    have hclen : c.toNat < (rowWindow (opts.startRow.getD 0) opts.endRow (opts.stepSize.getD 1)
        (sd.processedDataset.getD [])).length := by omega
    refine ⟨(rowWindow (opts.startRow.getD 0) opts.endRow (opts.stepSize.getD 1)
        (sd.processedDataset.getD []))[c.toNat], by simp, ?_⟩
    rw [hex, emitStep_success _ _ _ _ _ _ _ T c hT hc hlt]
    have hrem : max 0 (T - (c + 1)) = T - (c + 1) := by omega
    simp [hrem, List.getElem?_eq_getElem hclen]

/-- Witness for C5: with the four-row snapshot cached under a matching key
and cursor 0, the invocation does not fail with `RowsExhausted` (0 < 4). -/
theorem emission_contract_witness :
    needsReload scenarioOpts "ds1" sdCached4 = false ∧
    ((executeRowTrigger "ds1" scenarioOpts (FetchResult.success (some exRows4))
        noAmbient sdCached4).1 = .error .rowsExhausted ↔ (4 : Int) ≤ 0) :=
  ⟨by decide,
   (emission_contract "ds1" scenarioOpts (FetchResult.success (some exRows4))
      noAmbient sdCached4 4 0 (by decide) (by decide) (by decide)).1⟩

/-- The emission phase can only fail with `RowsExhausted`; it never produces
the fetch-related errors. -/
theorem emitStep_no_fetch_error (lim : Bool) (m s : Int) (e : Option Int) (st : Int)
    (snap : List LangWatchDatasetRow) (sd : StaticData) :
    (emitStep lim m s e st snap sd).1 ≠ .error .transport ∧
    (emitStep lim m s e st snap sd).1 ≠ .error .collectionEmpty := by
  dsimp only [emitStep]
  split <;> simp

/-- C6: when the reload fetch fails, or yields a missing/empty/non-array
payload, the invocation fails with the transport error (respectively
`CollectionEmpty`), and no persisted state is mutated on either of those
failure paths: the recorded reload key, cached snapshot and cursor are left
exactly as they were. -/
theorem failed_reload_preserves_state (dsId : String) (opts : ProcessingOptions)
    (ambient : Nat → Nat → Nat) (sd : StaticData) :
    (needsReload opts dsId sd = true →
      executeRowTrigger dsId opts .failure ambient sd = (.error .transport, sd) ∧
      ∀ payload, payload = none ∨ payload = some ([] : List LangWatchDatasetRow) →
        executeRowTrigger dsId opts (.success payload) ambient sd
          = (.error .collectionEmpty, sd)) ∧
    (∀ fetch : FetchResult,
      (executeRowTrigger dsId opts fetch ambient sd).1 = .error .transport ∨
      (executeRowTrigger dsId opts fetch ambient sd).1 = .error .collectionEmpty →
      (executeRowTrigger dsId opts fetch ambient sd).2 = sd) := by
  constructor
  · intro h
    refine ⟨execute_reload_failure dsId opts ambient sd h, ?_⟩
    rintro payload (rfl | rfl)
    · exact execute_reload_empty dsId opts none ambient sd h rfl
    · exact execute_reload_empty dsId opts (some []) ambient sd h rfl
  · intro fetch hres
    by_cases h : needsReload opts dsId sd = true
    · match fetch with
      | .failure => rw [execute_reload_failure dsId opts ambient sd h]
      | .success payload =>
        match payload with
        | none => rw [execute_reload_empty dsId opts none ambient sd h rfl]
        | some [] => rw [execute_reload_empty dsId opts (some []) ambient sd h rfl]
        | some (r :: rs) =>
          rw [execute_reload_success dsId opts (r :: rs) ambient sd h (by simp)] at hres
          rcases hres with hres | hres
          · exact absurd hres (emitStep_no_fetch_error _ _ _ _ _ _ _).1
          · exact absurd hres (emitStep_no_fetch_error _ _ _ _ _ _ _).2
    · rw [execute_noreload dsId opts fetch ambient sd (by simpa using h)] at hres
      rcases hres with hres | hres
      · exact absurd hres (emitStep_no_fetch_error _ _ _ _ _ _ _).1
      · exact absurd hres (emitStep_no_fetch_error _ _ _ _ _ _ _).2

/-- Witness for C6: on a never-run instance a transport failure is reported
as the wrapped transport error with the static data untouched. -/
theorem failed_reload_preserves_state_witness :
    executeRowTrigger "ds1" scenarioOpts .failure noAmbient StaticData.initial
      = (.error .transport, StaticData.initial) :=
  ((failed_reload_preserves_state "ds1" scenarioOpts noAmbient
      StaticData.initial).1 (by decide)).1

/-- C7: while the snapshot stays cached (no reload), the persisted cursor
never decreases and the snapshot is unchanged; on a reload (explicit reset,
nothing cached, or key mismatch against the recorded key) with a successful
non-empty fetch, the snapshot is freshly fetched (and freshly permuted when
shuffling) and the cursor is reset to 0 — persisting as 0 on immediate
exhaustion and as 1 after the successful emission of row 0. -/
theorem cursor_monotone_and_reset (dsId : String) (opts : ProcessingOptions)
    (fetch : FetchResult) (ambient : Nat → Nat → Nat) (sd : StaticData) :
    (needsReload opts dsId sd = false →
      (executeRowTrigger dsId opts fetch ambient sd).2.processedDataset
        = sd.processedDataset ∧
      (∀ v w : Int, sd.cursor = some v →
        (executeRowTrigger dsId opts fetch ambient sd).2.cursor = some w → v ≤ w)) ∧
    (needsReload opts dsId sd = true →
      ∀ rows : List LangWatchDatasetRow, fetch = .success (some rows) → rows ≠ [] →
        (executeRowTrigger dsId opts fetch ambient sd).2.processedDataset
          = some (if opts.shuffleRows.getD false then
              rowTriggerShuffle opts.shuffleSeed ambient rows else rows) ∧
        ((executeRowTrigger dsId opts fetch ambient sd).2.cursor = some 0 ∨
         (executeRowTrigger dsId opts fetch ambient sd).2.cursor = some 1) ∧
        (∀ out, (executeRowTrigger dsId opts fetch ambient sd).1 = .ok out →
          out.row_number = 0)) := by
  constructor
  · intro h
    rw [execute_noreload dsId opts fetch ambient sd h]
    dsimp only [emitStep]
    split
    · refine ⟨rfl, ?_⟩
      intro v w hv hw
      simp only [hv] at hw
      simp at hw
      omega
    · refine ⟨rfl, ?_⟩
      intro v w hv hw
      simp only [hv] at hw
      simp at hw
      omega
  · intro h rows hf hr
    subst hf
    rw [execute_reload_success dsId opts rows ambient sd h hr]
    generalize (if opts.shuffleRows.getD false = true then
        rowTriggerShuffle opts.shuffleSeed ambient rows else rows) = entries
    dsimp only [emitStep]
    split
    · refine ⟨rfl, Or.inl rfl, ?_⟩
      intro out hout
      simp at hout
    · refine ⟨rfl, Or.inr (by simp), ?_⟩
      intro out hout
      simp only [Except.ok.injEq] at hout
      rw [← hout]
      simp

/-- Witness for C7: a reload on a never-run instance with the five-row fetch
caches exactly the fetched snapshot (no shuffling configured). -/
theorem cursor_monotone_and_reset_witness :
    (executeRowTrigger "ds1" scenarioOpts (FetchResult.success (some exRows5))
       noAmbient StaticData.initial).2.processedDataset = some exRows5 := by
  have h := ((cursor_monotone_and_reset "ds1" scenarioOpts
      (FetchResult.success (some exRows5)) noAmbient StaticData.initial).2
      (by decide) exRows5 rfl (by decide)).1
  simpa [scenarioOpts] using h

/-- C1: two consecutive invocations with identical parameters — same
collection id, same shuffle flag, `shuffleSeed` not set in either call, no
reset requested — nevertheless refetch on the second call: the first call
records the seed normalised to `0` (`shuffleSeed || 0`) while the reload
check compares that against the raw, still-undefined option, so the key
comparison never matches.  The second call therefore reloads, resets the
cursor, and re-emits row 0 instead of advancing to row 1. -/
theorem undefined_seed_always_refetches :
    scenarioOptsNoSeed.resetProgress ≠ some true ∧
    (executeRowTrigger "ds1" scenarioOptsNoSeed (FetchResult.success (some exRows5))
        noAmbient StaticData.initial).2.processedDataset ≠ none ∧
    needsReload scenarioOptsNoSeed "ds1"
      (executeRowTrigger "ds1" scenarioOptsNoSeed (FetchResult.success (some exRows5))
        noAmbient StaticData.initial).2 = true ∧
    emittedRowInfo (nthCall "ds1" scenarioOptsNoSeed (FetchResult.success (some exRows5))
        noAmbient StaticData.initial 0).1 = some (0, 4) ∧
    emittedRowInfo (nthCall "ds1" scenarioOptsNoSeed (FetchResult.success (some exRows5))
        noAmbient StaticData.initial 1).1 = some (0, 4) := by
  exact ⟨by decide, by decide, by decide, rfl, rfl⟩

/-- For non-negative bounds, JavaScript slice is drop-after-take. -/
theorem jsSlice_nonneg {α : Type} (l : List α) (s f : Int) (hs : 0 ≤ s) (hf : 0 ≤ f) :
    jsSlice l s f = (l.take f.toNat).drop s.toNat := by
  dsimp only [jsSlice]
  rw [if_neg (by omega), if_neg (by omega)]
  apply List.ext_getElem?
  intro n
  rw [List.getElem?_take, List.getElem?_drop, List.getElem?_drop, List.getElem?_take]
  split
  · split
    · have hk : (min s (l.length : Int)).toNat + n = s.toNat + n := by omega
      rw [hk]
    · rename_i h1 h2
      rw [List.getElem?_eq_none (by omega)]
  · split
    · rename_i h1 h2
      rw [List.getElem?_eq_none (by omega)]
    · rfl

/-- For an end row that is at least the `-1` sentinel (or absent), the
code's window agrees with the specification's description of slicing. -/
theorem rowWindow_eq_claimedWindow {α : Type} (startRow : Int) (endRow : Option Int)
    (stepSize : Int) (l : List α)
    (he : endRow = none ∨ ∃ e, endRow = some e ∧ -1 ≤ e) :
    rowWindow startRow endRow stepSize l = claimedWindow startRow endRow stepSize l := by
  rcases he with rfl | ⟨e, rfl, he⟩
  · dsimp only [rowWindow, claimedWindow]
    rw [jsSlice_nonneg l _ _ (le_max_left 0 startRow) (by omega)]
  · dsimp only [rowWindow, claimedWindow]
    rw [jsSlice_nonneg l _ _ (le_max_left 0 startRow) (by split <;> omega)]

/-- C4 as stated is refuted by an end row below the `-1` sentinel: over
three rows, `startRow=0, endRow=-2, stepSize=1` makes the code compute
`endIndex = min(-1, 3) = -1`, which JavaScript `slice` interprets from the
end of the array, producing `[r0, r1]`, while the claimed slicing of
`[0, -1)` is empty. -/
theorem windowing_claim_counterexample :
    rowWindow 0 (some (-2)) 1 exRows3 = [mkRow "r0", mkRow "r1"] ∧
    claimedWindow 0 (some (-2)) 1 exRows3 = [] ∧
    rowWindow 0 (some (-2)) 1 exRows3 ≠ claimedWindow 0 (some (-2)) 1 exRows3 :=
  ⟨by decide, by decide, by decide⟩

/-- C4 (amended): the two implementations compute identical windows; the
claimed description (slice `[max(0,startRow), endIndex)` with `endIndex =
length` for an absent/sentinel end row and `min(endRow+1, length)`
otherwise, then the step filter) is correct for every `endRow ≥ -1` or
absent `endRow` — an `endRow ≤ -2` is instead interpreted by JavaScript
`slice` as an offset from the end of the snapshot; in particular
`startRow=2, endRow=7, stepSize=2` over `[r0..r9]` yields `[r2, r4, r6]`
in both implementations. -/
theorem windowing_characterisation :
    (∀ (α : Type) (startRow : Int) (endRow : Option Int) (stepSize : Int) (l : List α),
       rowWindow startRow endRow stepSize l = batchWindow startRow endRow stepSize l) ∧
    (∀ (α : Type) (startRow : Int) (endRow : Option Int) (stepSize : Int) (l : List α),
       endRow = none ∨ (∃ e, endRow = some e ∧ -1 ≤ e) →
       rowWindow startRow endRow stepSize l = claimedWindow startRow endRow stepSize l) ∧
    rowWindow 2 (some 7) 2 exRows10 = [mkRow "r2", mkRow "r4", mkRow "r6"] ∧
    batchWindow 2 (some 7) 2 exRows10 = [mkRow "r2", mkRow "r4", mkRow "r6"] := by
  refine ⟨fun α startRow endRow stepSize l => rfl,
          fun α startRow endRow stepSize l he =>
            rowWindow_eq_claimedWindow startRow endRow stepSize l he,
          by decide, by decide⟩

/-- Witness for C4 (amended) at `startRow=0, endRow=7, stepSize=1` over
three rows. -/
theorem windowing_characterisation_witness :
    rowWindow 0 (some 7) 1 exRows3 = claimedWindow 0 (some 7) 1 exRows3 :=
  windowing_characterisation.2.1 LangWatchDatasetRow 0 (some 7) 1 exRows3
    (Or.inr ⟨7, rfl, by decide⟩)

/-- C8 as stated is refuted by a start row at or beyond the snapshot length:
over three rows, `startRow=3` yields the empty working set, while clamping
the start index into `[0, 3)` (i.e. to 2) would yield `[r2]`. -/
theorem clamping_claim_counterexample :
    rowWindow 3 none 1 exRows3 = [] ∧
    rowWindow 2 none 1 exRows3 = [mkRow "r2"] ∧
    rowWindow 3 none 1 exRows3 ≠ rowWindow 2 none 1 exRows3 :=
  ⟨by decide, by decide, by decide⟩

/-- C8 (amended): the start index is clamped below to 0 (a negative
`startRow` behaves as 0) but not into `[0, length)` above — a `startRow ≥
length` produces the empty working set, not the one of the largest valid
index; an `endRow` at or beyond `length - 1` (other than the `-1` sentinel)
behaves as "all"; and every `stepSize < 1` behaves identically to
`stepSize = 1`. -/
theorem clamping_behaviour :
    (∀ (α : Type) (startRow : Int) (endRow : Option Int) (stepSize : Int) (l : List α),
       startRow ≤ 0 → rowWindow startRow endRow stepSize l = rowWindow 0 endRow stepSize l) ∧
    (∀ (α : Type) (startRow : Int) (endRow : Option Int) (stepSize : Int) (l : List α),
       (l.length : Int) ≤ startRow → rowWindow startRow endRow stepSize l = []) ∧
    (∀ (α : Type) (startRow : Int) (endRow : Option Int) (stepSize : Int) (l : List α),
       stepSize ≤ 1 → rowWindow startRow endRow stepSize l = rowWindow startRow endRow 1 l) ∧
    (∀ (α : Type) (startRow e : Int) (stepSize : Int) (l : List α),
       (l.length : Int) - 1 ≤ e → e ≠ -1 →
       rowWindow startRow (some e) stepSize l = rowWindow startRow none stepSize l) := by
  refine ⟨?_, ?_, ?_, ?_⟩
  · intro α startRow endRow stepSize l h
    dsimp only [rowWindow]
    rw [max_eq_left h]
    norm_num
  · intro α startRow endRow stepSize l h
    have hsl : jsSlice l (max 0 startRow) (match endRow with
        | some e => if e ≠ -1 then min (e + 1) (l.length : Int) else (l.length : Int)
        | none => (l.length : Int)) = [] := by
      dsimp only [jsSlice]
      rw [if_neg (show ¬ (max (0 : Int) startRow < 0) by omega)]
      rw [show min (max (0 : Int) startRow) (l.length : Int) = (l.length : Int) by omega]
      rw [show List.drop ((l.length : Int)).toNat l = ([] : List α) by
            rw [List.drop_eq_nil_iff]; omega]
      rw [List.take_nil]
    dsimp only [rowWindow]
    rw [hsl]
    split <;> simp
  · intro α startRow endRow stepSize l h
    dsimp only [rowWindow]
    rw [if_neg (by omega), if_neg (by omega)]
  · intro α startRow e stepSize l h1 h2
    dsimp only [rowWindow]
    rw [if_pos h2, min_eq_right (by omega)]

/-- Witness for C8 (amended): `stepSize = 0` behaves as `stepSize = 1`. -/
theorem clamping_behaviour_witness :
    rowWindow 0 none 0 exRows3 = rowWindow 0 none 1 exRows3 :=
  clamping_behaviour.2.2.1 LangWatchDatasetRow 0 none 0 exRows3 (by decide)

/-- C9: with row-limiting enabled both callers compute the effective total
as `min(maxRows, |working set|)`; the row trigger (`execute`) truncates only
for totals/progress reporting — the emitted row is read from the
un-truncated window, whose rows beyond the limit stay addressable — while
the batch trigger (`trigger`) additionally hard-truncates its in-memory row
list to the effective total (`rows.slice(0, effectiveTotal)`); concretely,
over five rows with `maxRows = 2` the batch trigger keeps 2 rows in memory
while the row trigger's window keeps all 5 and reports total 2. -/
theorem limit_policy :
    (∀ (m : Int) (len : Nat), effectiveTotal true m len = min m (len : Int)) ∧
    (∀ (startRow : Int) (endRow : Option Int) (stepSize m : Int)
       (rows : List LangWatchDatasetRow), 0 ≤ m →
       (batchTriggerRows startRow endRow stepSize true m rows).1
         = (batchWindow startRow endRow stepSize rows).take
             (min m ((batchWindow startRow endRow stepSize rows).length : Int)).toNat ∧
       (batchTriggerRows startRow endRow stepSize true m rows).2
         = min m ((batchWindow startRow endRow stepSize rows).length : Int)) ∧
    (∀ (lim : Bool) (m s : Int) (e : Option Int) (st : Int)
       (snap : List LangWatchDatasetRow) (sd : StaticData) (out : RowTriggerOutput),
       (emitStep lim m s e st snap sd).1 = .ok out →
       out.progress.total = effectiveTotal lim m (rowWindow s e st snap).length ∧
       out.entry = (((rowWindow s e st snap)[(max 0 (sd.cursor.getD 0)).toNat]?).getD
         defaultRow).entry) ∧
    (batchTriggerRows 0 none 1 true 2 exRows5).1.length = 2 ∧
    (rowWindow 0 none 1 exRows5).length = 5 ∧
    effectiveTotal true 2 (rowWindow 0 none 1 exRows5).length = 2 := by
  refine ⟨fun m len => rfl, ?_, ?_, by decide, by decide, by decide⟩
  · intro startRow endRow stepSize m rows hm
    dsimp only [batchTriggerRows]
    constructor
    · rw [show effectiveTotal true m (batchWindow startRow endRow stepSize rows).length
          = min m ((batchWindow startRow endRow stepSize rows).length : Int) from rfl]
      rw [jsSlice_nonneg _ _ _ le_rfl (by omega)]
      simp
    · rfl
  · intro lim m s e st snap sd out hout
    dsimp only [emitStep] at hout
    split at hout
    · simp at hout
    · simp only [Except.ok.injEq] at hout
      rw [← hout]
      exact ⟨rfl, rfl⟩

/-- Witness for C9 at `maxRows = 2` over the five-row collection. -/
theorem limit_policy_witness :
    (batchTriggerRows 0 none 1 true 2 exRows5).1
      = (batchWindow 0 none 1 exRows5).take
          (min 2 ((batchWindow 0 none 1 exRows5).length : Int)).toNat :=
  (limit_policy.2.1 0 none 1 2 exRows5 (by decide)).1
